import Mathlib

/-!
# godot-cpp: `src/godot.cpp` (GDExtensionBinding)

A shallow embedding of the extension bootstrap glue: the process-wide binding
context, the eight callback slots, `init`, the two level trampolines, the two
instance callbacks and the eight registration setters.

Pointers are natural numbers, `0` being `nullptr`.  Calls that leave the file
(user callbacks, `ClassDB`, `Variant`, the error channel, the allocator) are
recorded as events appended to the trace of the state, in program order.
-/

namespace godot

/-- Raw pointer value; `0` is `nullptr`. -/
abbrev Ptr := Nat

/-- The type `GDExtensionBinding::Callback`, a pointer to a zero-argument function; `0` is `nullptr`. -/
abbrev Callback := Nat

/-- Modelled from the spec: the enumeration `GDNativeInitializationLevel` (declared in the host
interface header), "Level (enumerated: CORE, SERVERS, SCENE, EDITOR)"; these are the four
enumerators the `switch` statements of the file handle. -/
inductive GDNativeInitializationLevel where
  | CORE
  | SERVERS
  | SCENE
  | EDITOR
  deriving DecidableEq, Repr

namespace GDNativeInitializationLevel

/-- Numeric value of the enumerator (declaration order). -/
def rank : GDNativeInitializationLevel → Nat
  | CORE => 0
  | SERVERS => 1
  | SCENE => 2
  | EDITOR => 3

end GDNativeInitializationLevel

open GDNativeInitializationLevel

/-- Value of a function-pointer field of `GDNativeInitialization`. -/
inductive InitFn where
  | null
  | initialize_level
  | deinitialize_level
  | foreign (addr : Nat)
  deriving DecidableEq, Repr

/-- The fields of `GDNativeInitialization` that `init` writes through `r_initialization`;
`initialize_fn` and `deinitialize_fn` stand for the members `initialize` and `deinitialize`
(the former is a reserved word). -/
structure GDNativeInitialization where
  minimum_initialization_level : GDNativeInitializationLevel
  initialize_fn : InitFn
  deinitialize_fn : InitFn
  deriving DecidableEq, Repr

/-- Modelled from the spec: the class `Wrapped` (declared in `wrapped.hpp`), which
"owns no state beyond a back-reference to the native instance pointer". -/
structure Wrapped where
  owner : Ptr
  deriving DecidableEq, Repr

/-- Observable effects of the file, in program order. -/
inductive Event where
  | call (f : Callback)
  | setCurrentLevel (l : GDNativeInitializationLevel)
  | classdbInit (l : GDNativeInitializationLevel)
  | classdbDeinit (l : GDNativeInitializationLevel)
  | variantInitBindings
  | errPrint (msg : String)
  | memnew (h : Ptr) (w : Wrapped)
  | memdelete (b : Ptr)
  deriving DecidableEq, Repr

/-- Process-wide state: `internal::{interface, library, token}`, the eight static
callback slots, `ClassDB::current_level`, the allocated wrappers and the trace. -/
structure State where
  interface : Ptr
  library : Ptr
  token : Ptr
  core_init : Callback
  server_init : Callback
  scene_init : Callback
  editor_init : Callback
  core_terminate : Callback
  server_terminate : Callback
  scene_terminate : Callback
  editor_terminate : Callback
  current_level : GDNativeInitializationLevel
  heap : List (Ptr × Wrapped)
  trace : List Event
  deriving DecidableEq, Repr

/-- Append one event to the trace. -/
def emit (e : Event) (s : State) : State :=
  { s with trace := s.trace ++ [e] }

/-- Call through a callback pointer; the body is user code and is recorded as one event. -/
def invoke (f : Callback) (s : State) : State :=
  emit (.call f) s

/-- The assignment `ClassDB::current_level = p_level`. -/
def setCurrentLevel (l : GDNativeInitializationLevel) (s : State) : State :=
  emit (.setCurrentLevel l) { s with current_level := l }

/-- The macros `ERR_FAIL_V_MSG`, `ERR_FAIL_COND_V_MSG`, `ERR_FAIL_COND_MSG`: report the message
(the caller then returns). -/
def errFail (msg : String) (s : State) : State :=
  emit (.errPrint msg) s

/-- Modelled from the spec: the allocator behind `memnew` (declared in `memory.hpp`) "allocates a
Wrapper Instance"; it hands out a non-null address not in use. -/
def freshAddr (heap : List (Ptr × Wrapped)) : Ptr :=
  (heap.map Prod.fst).foldr max 0 + 1

/-- The expression `memnew(Wrapped(p_instance))`. -/
def memnewWrapped (p_instance : Ptr) (s : State) : Ptr × State :=
  let h := freshAddr s.heap
  let w : Wrapped := ⟨p_instance⟩
  (h, emit (.memnew h w) { s with heap := (h, w) :: s.heap })

/-- Modelled from the spec: `memdelete` (declared in `memory.hpp`) "releases the Wrapper Instance". -/
def memdelete (b : Ptr) (s : State) : State :=
  emit (.memdelete b) { s with heap := s.heap.filter (fun e => e.1 ≠ b) }

/-- Embedding of `GDExtensionBinding::init`: returns the result, the record behind `r_initialization` and the state. -/
def init (p_interface p_library : Ptr) (r_initialization : GDNativeInitialization) (s : State) :
    Bool × GDNativeInitialization × State :=
  let s := { s with interface := p_interface }
  let s := { s with library := p_library }
  let s := { s with token := p_library }
  let r := { r_initialization with initialize_fn := InitFn.initialize_level }
  let r := { r with deinitialize_fn := InitFn.deinitialize_level }
  if s.core_init ≠ 0 then
    let r := { r with minimum_initialization_level := CORE }
    (true, r, emit .variantInitBindings s)
  else if s.server_init ≠ 0 then
    let r := { r with minimum_initialization_level := SERVERS }
    (true, r, emit .variantInitBindings s)
  else if s.scene_init ≠ 0 then
    let r := { r with minimum_initialization_level := SCENE }
    (true, r, emit .variantInitBindings s)
  else if s.editor_init ≠ 0 then
    let r := { r with minimum_initialization_level := EDITOR }
    (true, r, emit .variantInitBindings s)
  else
    (false, r, errFail "At least one initialization callback must be defined." s)

/-- Embedding of `GDExtensionBinding::initialize_level`. -/
def initialize_level (p_level : GDNativeInitializationLevel) (s : State) : State :=
  let s := setCurrentLevel p_level s
  let s :=
    match p_level with
    | CORE => if s.core_init ≠ 0 then invoke s.core_init s else s
    | SERVERS => if s.server_init ≠ 0 then invoke s.server_init s else s
    | SCENE => if s.scene_init ≠ 0 then invoke s.scene_init s else s
    | EDITOR => if s.editor_init ≠ 0 then invoke s.editor_init s else s
  emit (.classdbInit p_level) s

/-- Embedding of `GDExtensionBinding::deinitialize_level`. -/
def deinitialize_level (p_level : GDNativeInitializationLevel) (s : State) : State :=
  let s := setCurrentLevel p_level s
  let s := emit (.classdbDeinit p_level) s
  match p_level with
  | CORE => if s.core_terminate ≠ 0 then invoke s.core_terminate s else s
  | SERVERS => if s.server_terminate ≠ 0 then invoke s.server_terminate s else s
  | SCENE => if s.scene_terminate ≠ 0 then invoke s.scene_terminate s else s
  | EDITOR => if s.editor_terminate ≠ 0 then invoke s.editor_terminate s else s

/-- Embedding of `GDExtensionBinding::create_instance_callback`. -/
def create_instance_callback (p_token p_instance : Ptr) (s : State) : Ptr × State :=
  if p_token ≠ s.library then
    (0, errFail "Asking for creating instance with invalid token." s)
  else
    memnewWrapped p_instance s

/-- Embedding of `GDExtensionBinding::free_instance_callback`. -/
def free_instance_callback (p_token p_instance p_binding : Ptr) (s : State) : State :=
  if p_token ≠ s.library then
    errFail "Asking for freeing instance with invalid token." s
  else
    memdelete p_binding s

/-- Embedding of `InitObject::register_core_initializer`. -/
def register_core_initializer (p_core_init : Callback) (s : State) : State :=
  { s with core_init := p_core_init }

/-- Embedding of `InitObject::register_server_initializer`. -/
def register_server_initializer (p_server_init : Callback) (s : State) : State :=
  { s with server_init := p_server_init }

/-- Embedding of `InitObject::register_scene_initializer`. -/
def register_scene_initializer (p_scene_init : Callback) (s : State) : State :=
  { s with scene_init := p_scene_init }

/-- Embedding of `InitObject::register_editor_initializer`. -/
def register_editor_initializer (p_editor_init : Callback) (s : State) : State :=
  { s with editor_init := p_editor_init }

/-- Embedding of `InitObject::register_core_terminator`. -/
def register_core_terminator (p_core_terminate : Callback) (s : State) : State :=
  { s with core_terminate := p_core_terminate }

/-- Embedding of `InitObject::register_server_terminator`. -/
def register_server_terminator (p_server_terminate : Callback) (s : State) : State :=
  { s with server_terminate := p_server_terminate }

/-- Embedding of `InitObject::register_scene_terminator`. -/
def register_scene_terminator (p_scene_terminate : Callback) (s : State) : State :=
  { s with scene_terminate := p_scene_terminate }

/-- Embedding of `InitObject::register_editor_terminator`. -/
def register_editor_terminator (p_editor_terminate : Callback) (s : State) : State :=
  { s with editor_terminate := p_editor_terminate }

/-! ## Vocabulary of the properties -/

/-- The init slot registered for a level. -/
def initSlot (s : State) : GDNativeInitializationLevel → Callback
  | CORE => s.core_init
  | SERVERS => s.server_init
  | SCENE => s.scene_init
  | EDITOR => s.editor_init

/-- The terminate slot registered for a level. -/
def terminateSlot (s : State) : GDNativeInitializationLevel → Callback
  | CORE => s.core_terminate
  | SERVERS => s.server_terminate
  | SCENE => s.scene_terminate
  | EDITOR => s.editor_terminate

/-- Overwrite the four terminate slots. -/
def withTerminators (a b c d : Callback) (s : State) : State :=
  { s with core_terminate := a, server_terminate := b, scene_terminate := c,
           editor_terminate := d }

/-- The state at load time: null context, null slots, nothing allocated, empty trace. -/
def initialState : State :=
  { interface := 0, library := 0, token := 0,
    core_init := 0, server_init := 0, scene_init := 0, editor_init := 0,
    core_terminate := 0, server_terminate := 0, scene_terminate := 0, editor_terminate := 0,
    current_level := CORE, heap := [], trace := [] }

/-- A caller-side initialization record with nothing filled in. -/
def blankRecord : GDNativeInitialization :=
  { minimum_initialization_level := EDITOR, initialize_fn := .null, deinitialize_fn := .null }

/-- The binding context `(interface, library, token)`. -/
def context (s : State) : Ptr × Ptr × Ptr :=
  (s.interface, s.library, s.token)

/-- The eight callback slots, init slots first. -/
def slots (s : State) : List Callback :=
  [s.core_init, s.server_init, s.scene_init, s.editor_init,
   s.core_terminate, s.server_terminate, s.scene_terminate, s.editor_terminate]

/-- The callbacks invoked in a trace, in order. -/
def callsOf : List Event → List Callback
  | [] => []
  | .call f :: es => f :: callsOf es
  | _ :: es => callsOf es

/-- The events a call appended to the trace `before`. -/
def eventsSince (before : State) (after : State) : List Event :=
  after.trace.drop before.trace.length

/-- Both events occur in the trace and the first occurrence of `a` is before that of `b`. -/
def precedes (a b : Event) (tr : List Event) : Prop :=
  a ∈ tr ∧ b ∈ tr ∧ tr.indexOf a < tr.indexOf b

/-- The two kinds of work a level trampoline does besides the `current_level` assignment. -/
inductive Phase where
  | userCallback
  | registryCall
  deriving DecidableEq, Repr

/-- Kind of an event, for the callback and the `ClassDB` calls. -/
def phaseOf : Event → Option Phase
  | .call _ => some .userCallback
  | .classdbInit _ => some .registryCall
  | .classdbDeinit _ => some .registryCall
  | _ => none

/-- The order of callback and registry work in a trace. -/
def phases (tr : List Event) : List Phase :=
  tr.filterMap phaseOf

/-- One entry point of the file, as the host or the user code may call it. -/
inductive Op where
  | init (p_interface p_library : Ptr) (r_initialization : GDNativeInitialization)
  | initialize_level (p_level : GDNativeInitializationLevel)
  | deinitialize_level (p_level : GDNativeInitializationLevel)
  | create_instance_callback (p_token p_instance : Ptr)
  | free_instance_callback (p_token p_instance p_binding : Ptr)
  | register_core_initializer (f : Callback)
  | register_server_initializer (f : Callback)
  | register_scene_initializer (f : Callback)
  | register_editor_initializer (f : Callback)
  | register_core_terminator (f : Callback)
  | register_server_terminator (f : Callback)
  | register_scene_terminator (f : Callback)
  | register_editor_terminator (f : Callback)
  deriving DecidableEq, Repr

/-- Whether the entry point is `init`. -/
def Op.isInit : Op → Bool
  | .init _ _ _ => true
  | _ => false

/-- Effect of one entry point on the process-wide state. -/
def step (o : Op) (s : State) : State :=
  match o with
  | .init i l r => (init i l r s).2.2
  | .initialize_level l => initialize_level l s
  | .deinitialize_level l => deinitialize_level l s
  | .create_instance_callback t p => (create_instance_callback t p s).2
  | .free_instance_callback t p b => free_instance_callback t p b s
  | .register_core_initializer f => register_core_initializer f s
  | .register_server_initializer f => register_server_initializer f s
  | .register_scene_initializer f => register_scene_initializer f s
  | .register_editor_initializer f => register_editor_initializer f s
  | .register_core_terminator f => register_core_terminator f s
  | .register_server_terminator f => register_server_terminator f s
  | .register_scene_terminator f => register_scene_terminator f s
  | .register_editor_terminator f => register_editor_terminator f s

/-- Effect of a sequence of entry points, first to last. -/
def run : List Op → State → State
  | [], s => s
  | o :: os, s => run os (step o s)

/-! ## Helper lemmas -/

theorem trace_emit (e : Event) (s : State) : (emit e s).trace = s.trace ++ [e] := rfl

theorem eventsSince_append (s t : State) (d : List Event) (h : t.trace = s.trace ++ d) :
    eventsSince s t = d := by
  simp [eventsSince, h]

theorem le_foldr_max (l : List Nat) (a : Nat) (h : a ∈ l) : a ≤ l.foldr max 0 := by
  induction l with
  | nil => cases h
  | cons b t ih =>
    simp only [List.foldr_cons]
    rcases List.mem_cons.mp h with h | h
    · subst h
      exact le_max_left _ _
    · exact le_trans (ih h) (le_max_right _ _)

theorem freshAddr_ne_zero (heap : List (Ptr × Wrapped)) : freshAddr heap ≠ 0 := by
  simp [freshAddr]

theorem freshAddr_not_mem (heap : List (Ptr × Wrapped)) (w : Wrapped) :
    (freshAddr heap, w) ∉ heap := by
  intro hmem
  have h1 : freshAddr heap ∈ heap.map Prod.fst := List.mem_map.mpr ⟨_, hmem, rfl⟩
  have h2 := le_foldr_max _ _ h1
  simp only [freshAddr] at h2
  omega

theorem step_library_token (o : Op) (s : State) (h : o.isInit = false) :
    (step o s).library = s.library ∧ (step o s).token = s.token := by
  cases o with
  | init i l r => simp [Op.isInit] at h
  | initialize_level l =>
    cases l <;>
      simp only [step, initialize_level, setCurrentLevel, invoke, emit] <;>
      split <;> exact ⟨rfl, rfl⟩
  | deinitialize_level l =>
    cases l <;>
      simp only [step, deinitialize_level, setCurrentLevel, invoke, emit] <;>
      split <;> exact ⟨rfl, rfl⟩
  | create_instance_callback t p =>
    simp only [step, create_instance_callback, memnewWrapped, errFail, emit]
    split <;> exact ⟨rfl, rfl⟩
  | free_instance_callback t p b =>
    simp only [step, free_instance_callback, memdelete, errFail, emit]
    split <;> exact ⟨rfl, rfl⟩
  | register_core_initializer f => exact ⟨rfl, rfl⟩
  | register_server_initializer f => exact ⟨rfl, rfl⟩
  | register_scene_initializer f => exact ⟨rfl, rfl⟩
  | register_editor_initializer f => exact ⟨rfl, rfl⟩
  | register_core_terminator f => exact ⟨rfl, rfl⟩
  | register_server_terminator f => exact ⟨rfl, rfl⟩
  | register_scene_terminator f => exact ⟨rfl, rfl⟩
  | register_editor_terminator f => exact ⟨rfl, rfl⟩

theorem run_library_token (ops : List Op) (s : State) (h : ∀ o ∈ ops, o.isInit = false) :
    (run ops s).library = s.library ∧ (run ops s).token = s.token := by
  induction ops generalizing s with
  | nil => exact ⟨rfl, rfl⟩
  | cons o os ih =>
    have ho := step_library_token o s (h o (List.mem_cons_self _ _))
    have hr := ih (step o s) (fun o' ho' => h o' (List.mem_cons_of_mem _ ho'))
    simp only [run]
    exact ⟨hr.1.trans ho.1, hr.2.trans ho.2⟩

theorem init_library_token (i l : Ptr) (r : GDNativeInitialization) (s : State) :
    (init i l r s).2.2.library = l ∧ (init i l r s).2.2.token = l := by
  simp only [init, errFail, emit]
  split
  · exact ⟨rfl, rfl⟩
  · split
    · exact ⟨rfl, rfl⟩
    · split
      · exact ⟨rfl, rfl⟩
      · split <;> exact ⟨rfl, rfl⟩

theorem initialize_level_eq (l : GDNativeInitializationLevel) (s : State) :
    initialize_level l s =
      { s with current_level := l,
               trace := s.trace ++ ([.setCurrentLevel l]
                 ++ (if initSlot s l ≠ 0 then [.call (initSlot s l)] else [])
                 ++ [.classdbInit l]) } := by
  cases l
  · by_cases h : s.core_init = 0 <;>
      simp [initialize_level, setCurrentLevel, invoke, emit, initSlot, h]
  · by_cases h : s.server_init = 0 <;>
      simp [initialize_level, setCurrentLevel, invoke, emit, initSlot, h]
  · by_cases h : s.scene_init = 0 <;>
      simp [initialize_level, setCurrentLevel, invoke, emit, initSlot, h]
  · by_cases h : s.editor_init = 0 <;>
      simp [initialize_level, setCurrentLevel, invoke, emit, initSlot, h]

theorem deinitialize_level_eq (l : GDNativeInitializationLevel) (s : State) :
    deinitialize_level l s =
      { s with current_level := l,
               trace := s.trace ++ ([.setCurrentLevel l, .classdbDeinit l]
                 ++ (if terminateSlot s l ≠ 0 then [.call (terminateSlot s l)] else [])) } := by
  cases l
  · by_cases h : s.core_terminate = 0 <;>
      simp [deinitialize_level, setCurrentLevel, invoke, emit, terminateSlot, h]
  · by_cases h : s.server_terminate = 0 <;>
      simp [deinitialize_level, setCurrentLevel, invoke, emit, terminateSlot, h]
  · by_cases h : s.scene_terminate = 0 <;>
      simp [deinitialize_level, setCurrentLevel, invoke, emit, terminateSlot, h]
  · by_cases h : s.editor_terminate = 0 <;>
      simp [deinitialize_level, setCurrentLevel, invoke, emit, terminateSlot, h]

theorem eventsSince_initialize_level (l : GDNativeInitializationLevel) (s : State) :
    eventsSince s (initialize_level l s) =
      [.setCurrentLevel l] ++ (if initSlot s l ≠ 0 then [.call (initSlot s l)] else [])
        ++ [.classdbInit l] :=
  eventsSince_append _ _ _ (by rw [initialize_level_eq])

theorem eventsSince_deinitialize_level (l : GDNativeInitializationLevel) (s : State) :
    eventsSince s (deinitialize_level l s) =
      [.setCurrentLevel l, .classdbDeinit l]
        ++ (if terminateSlot s l ≠ 0 then [.call (terminateSlot s l)] else []) :=
  eventsSince_append _ _ _ (by rw [deinitialize_level_eq])

theorem step_interface (o : Op) (s : State) (h : o.isInit = false) :
    (step o s).interface = s.interface := by
  cases o with
  | init i l r => simp [Op.isInit] at h
  | initialize_level l => simp only [step, initialize_level_eq]
  | deinitialize_level l => simp only [step, deinitialize_level_eq]
  | create_instance_callback t p =>
    simp only [step, create_instance_callback, memnewWrapped, errFail, emit]
    split <;> rfl
  | free_instance_callback t p b =>
    simp only [step, free_instance_callback, memdelete, errFail, emit]
    split <;> rfl
  | register_core_initializer f => rfl
  | register_server_initializer f => rfl
  | register_scene_initializer f => rfl
  | register_editor_initializer f => rfl
  | register_core_terminator f => rfl
  | register_server_terminator f => rfl
  | register_scene_terminator f => rfl
  | register_editor_terminator f => rfl

theorem run_interface (ops : List Op) (s : State) (h : ∀ o ∈ ops, o.isInit = false) :
    (run ops s).interface = s.interface := by
  induction ops generalizing s with
  | nil => rfl
  | cons o os ih =>
    simp only [run]
    rw [ih (step o s) (fun o2 ho2 => h o2 (List.mem_cons_of_mem _ ho2))]
    exact step_interface o s (h o (List.mem_cons_self _ _))

theorem step_token_eq_library (o : Op) (s : State) (h : s.token = s.library) :
    (step o s).token = (step o s).library := by
  cases hi : o.isInit
  · have hp := step_library_token o s hi
    rw [hp.1, hp.2]
    exact h
  · cases o with
    | init i l r =>
      have hl := init_library_token i l r s
      simp only [step]
      rw [hl.1, hl.2]
    | _ => simp [Op.isInit] at hi

theorem run_token_eq_library (ops : List Op) (s : State) (h : s.token = s.library) :
    (run ops s).token = (run ops s).library := by
  induction ops generalizing s with
  | nil => exact h
  | cons o os ih =>
    simp only [run]
    exact ih (step o s) (step_token_eq_library o s h)

/-! ## Bootstrap -/

/-- C1: when at least one of the four init slots is non-null, `init` returns true and the level
it writes to `minimum_initialization_level` has a non-null init slot while every earlier level
(CORE < SERVERS < SCENE < EDITOR) has a null one; result and record are the same whatever the
four terminate slots hold. -/
theorem init_minimum_level_earliest (p_interface p_library : Ptr)
    (r : GDNativeInitialization) (s : State)
    (h : s.core_init ≠ 0 ∨ s.server_init ≠ 0 ∨ s.scene_init ≠ 0 ∨ s.editor_init ≠ 0) :
    (init p_interface p_library r s).1 = true ∧
    initSlot s (init p_interface p_library r s).2.1.minimum_initialization_level ≠ 0 ∧
    (∀ l : GDNativeInitializationLevel,
      l.rank < (init p_interface p_library r s).2.1.minimum_initialization_level.rank →
        initSlot s l = 0) ∧
    (∀ a b c d : Callback,
      (init p_interface p_library r (withTerminators a b c d s)).1
          = (init p_interface p_library r s).1 ∧
      (init p_interface p_library r (withTerminators a b c d s)).2.1
          = (init p_interface p_library r s).2.1) := by
  by_cases h1 : s.core_init = 0
  · by_cases h2 : s.server_init = 0
    · by_cases h3 : s.scene_init = 0
      · have h4 : s.editor_init ≠ 0 := by
          rcases h with h | h | h | h
          · exact absurd h1 h
          · exact absurd h2 h
          · exact absurd h3 h
          · exact h
        refine ⟨?_, ?_, ?_, ?_⟩
        · simp [init, h1, h2, h3, h4]
        · simp [init, h1, h2, h3, h4, initSlot]
        · intro l
          cases l <;> simp [init, h1, h2, h3, h4, initSlot, rank]
        · intro a b c d
          simp [init, withTerminators, h1, h2, h3, h4]
      · refine ⟨?_, ?_, ?_, ?_⟩
        · simp [init, h1, h2, h3]
        · simp [init, h1, h2, h3, initSlot]
        · intro l
          cases l <;> simp [init, h1, h2, h3, initSlot, rank]
        · intro a b c d
          simp [init, withTerminators, h1, h2, h3]
    · refine ⟨?_, ?_, ?_, ?_⟩
      · simp [init, h1, h2]
      · simp [init, h1, h2, initSlot]
      · intro l
        cases l <;> simp [init, h1, h2, initSlot, rank]
      · intro a b c d
        simp [init, withTerminators, h1, h2]
  · refine ⟨?_, ?_, ?_, ?_⟩
    · simp [init, h1]
    · simp [init, h1, initSlot]
    · intro l
      cases l <;> simp [init, h1, initSlot, rank]
    · intro a b c d
      simp [init, withTerminators, h1]

/-- Witness of C1: only the SCENE init slot is registered, and the minimum level is SCENE. -/
theorem init_minimum_level_earliest_witness :
    (init 11 22 blankRecord (register_scene_initializer 5 initialState)).2.1
        = ⟨SCENE, .initialize_level, .deinitialize_level⟩ ∧
    (init 11 22 blankRecord (register_scene_initializer 5 initialState)).1 = true :=
  ⟨by simp [init, register_scene_initializer, initialState, blankRecord],
   (init_minimum_level_earliest 11 22 blankRecord (register_scene_initializer 5 initialState)
      (by simp [register_scene_initializer, initialState])).1⟩

/-- C2 (counterexample): with all four init slots null, `init 11 22` on the load-time state
returns false, yet the binding context and the caller's record are not what they were. -/
theorem init_failure_mutates_context :
    initSlot initialState CORE = 0 ∧ initSlot initialState SERVERS = 0 ∧
    initSlot initialState SCENE = 0 ∧ initSlot initialState EDITOR = 0 ∧
    (init 11 22 blankRecord initialState).1 = false ∧
    context (init 11 22 blankRecord initialState).2.2 = (11, 22, 22) ∧
    context initialState = (0, 0, 0) ∧
    ¬ (context (init 11 22 blankRecord initialState).2.2 = context initialState ∧
       (init 11 22 blankRecord initialState).2.1 = blankRecord) := by
  simp [init, initSlot, initialState, blankRecord, context, errFail, emit]

/-- C2 (amended): with all four init slots null, `init` returns false, reports the error and does
not reach `Variant::init_bindings`; the eight slots, `ClassDB::current_level`, the wrappers and
`minimum_initialization_level` are untouched, while interface, library and token take the
arguments and the two function pointers of the record take the trampolines. -/
theorem init_failure_effects (p_interface p_library : Ptr)
    (r : GDNativeInitialization) (s : State)
    (h : s.core_init = 0 ∧ s.server_init = 0 ∧ s.scene_init = 0 ∧ s.editor_init = 0) :
    (init p_interface p_library r s).1 = false ∧
    (init p_interface p_library r s).2.1 =
      { r with initialize_fn := InitFn.initialize_level,
               deinitialize_fn := InitFn.deinitialize_level } ∧
    (init p_interface p_library r s).2.1.minimum_initialization_level
      = r.minimum_initialization_level ∧
    (init p_interface p_library r s).2.2 =
      { s with interface := p_interface, library := p_library, token := p_library,
               trace := s.trace ++
                 [.errPrint "At least one initialization callback must be defined."] } ∧
    slots (init p_interface p_library r s).2.2 = slots s ∧
    (init p_interface p_library r s).2.2.current_level = s.current_level ∧
    (init p_interface p_library r s).2.2.heap = s.heap ∧
    Event.variantInitBindings ∉ eventsSince s (init p_interface p_library r s).2.2 := by
  obtain ⟨h1, h2, h3, h4⟩ := h
  simp [init, h1, h2, h3, h4, errFail, emit, slots, eventsSince]

/-- Witness of C2 (amended): the load-time state, where nothing is registered. -/
theorem init_failure_effects_witness :
    (initialState.core_init = 0 ∧ initialState.server_init = 0 ∧
      initialState.scene_init = 0 ∧ initialState.editor_init = 0) ∧
    (init 11 22 blankRecord initialState).1 = false :=
  ⟨by simp [initialState],
   (init_failure_effects 11 22 blankRecord initialState (by simp [initialState])).1⟩

/-! ## Instance callbacks -/

/-- C3: in any state reached from `init` with library handle `H` by further calls other than
`init`, the stored token is `H`; `create_instance_callback t p` with `t` equal to the stored token
returns a non-null, previously unused handle bound to a new `Wrapped` around `p`, and with any
other `t` it returns null, reports the invalid-token error and allocates nothing. -/
theorem create_instance_callback_checks_token (p_interface H : Ptr)
    (r : GDNativeInitialization) (s0 : State) (ops : List Op)
    (hops : ∀ o ∈ ops, o.isInit = false) (t p : Ptr) :
    (run ops (init p_interface H r s0).2.2).token = H ∧
    (t = (run ops (init p_interface H r s0).2.2).token →
      (create_instance_callback t p (run ops (init p_interface H r s0).2.2)).1 ≠ 0 ∧
      (∀ w, ((create_instance_callback t p (run ops (init p_interface H r s0).2.2)).1, w)
              ∉ (run ops (init p_interface H r s0).2.2).heap) ∧
      (create_instance_callback t p (run ops (init p_interface H r s0).2.2)).2.heap =
        ((create_instance_callback t p (run ops (init p_interface H r s0).2.2)).1, ⟨p⟩)
          :: (run ops (init p_interface H r s0).2.2).heap ∧
      eventsSince (run ops (init p_interface H r s0).2.2)
          (create_instance_callback t p (run ops (init p_interface H r s0).2.2)).2 =
        [.memnew (create_instance_callback t p (run ops (init p_interface H r s0).2.2)).1 ⟨p⟩]) ∧
    (t ≠ (run ops (init p_interface H r s0).2.2).token →
      (create_instance_callback t p (run ops (init p_interface H r s0).2.2)).1 = 0 ∧
      (create_instance_callback t p (run ops (init p_interface H r s0).2.2)).2.heap =
        (run ops (init p_interface H r s0).2.2).heap ∧
      eventsSince (run ops (init p_interface H r s0).2.2)
          (create_instance_callback t p (run ops (init p_interface H r s0).2.2)).2 =
        [.errPrint "Asking for creating instance with invalid token."]) := by
  have hi := init_library_token p_interface H r s0
  have hr := run_library_token ops (init p_interface H r s0).2.2 hops
  generalize run ops (init p_interface H r s0).2.2 = s at hr ⊢
  have hlib : s.library = H := hr.1.trans hi.1
  have htok : s.token = H := hr.2.trans hi.2
  refine ⟨htok, ?_, ?_⟩
  · intro ht
    have hcond : ¬ (t ≠ s.library) := by
      rw [ht, htok, hlib]
      simp
    have e : create_instance_callback t p s = memnewWrapped p s := by
      simp only [create_instance_callback, if_neg hcond]
    rw [e]
    exact ⟨freshAddr_ne_zero _, fun w => freshAddr_not_mem _ w, rfl,
      eventsSince_append _ _ _ rfl⟩
  · intro ht
    have hcond : t ≠ s.library := by
      rw [hlib, ← htok]
      exact ht
    have e : create_instance_callback t p s
        = (0, errFail "Asking for creating instance with invalid token." s) := by
      simp only [create_instance_callback, if_pos hcond]
    rw [e]
    exact ⟨rfl, rfl, eventsSince_append _ _ _ rfl⟩

/-- Witness of C3: bootstrap with handle 22, register a terminator, enter a level, then ask for a
wrapper with the right token. -/
theorem create_instance_callback_checks_token_witness :
    (∀ o ∈ [Op.register_core_terminator 3, Op.initialize_level CORE], o.isInit = false) ∧
    (run [Op.register_core_terminator 3, Op.initialize_level CORE]
      (init 11 22 blankRecord (register_core_initializer 5 initialState)).2.2).token = 22 :=
  ⟨by simp [Op.isInit],
   (create_instance_callback_checks_token 11 22 blankRecord
      (register_core_initializer 5 initialState)
      [Op.register_core_terminator 3, Op.initialize_level CORE]
      (by simp [Op.isInit]) 22 77).1⟩

/-- C4: in any state reached from `init` by further calls other than `init`,
`free_instance_callback t p b` with `t` equal to the stored token performs exactly one
`memdelete` of `b`, after which `b` is no longer allocated and every other wrapper still is;
with any other `t` it performs no `memdelete` and leaves the heap as it was; `p` plays no role. -/
theorem free_instance_callback_checks_token (p_interface H : Ptr)
    (r : GDNativeInitialization) (s0 : State) (ops : List Op)
    (hops : ∀ o ∈ ops, o.isInit = false) (t p b : Ptr) :
    (t = (run ops (init p_interface H r s0).2.2).token →
      eventsSince (run ops (init p_interface H r s0).2.2)
          (free_instance_callback t p b (run ops (init p_interface H r s0).2.2))
        = [.memdelete b] ∧
      (eventsSince (run ops (init p_interface H r s0).2.2)
          (free_instance_callback t p b (run ops (init p_interface H r s0).2.2))).count
        (.memdelete b) = 1 ∧
      (∀ w, (b, w) ∉
        (free_instance_callback t p b (run ops (init p_interface H r s0).2.2)).heap) ∧
      (∀ e ∈ (run ops (init p_interface H r s0).2.2).heap, e.1 ≠ b →
        e ∈ (free_instance_callback t p b (run ops (init p_interface H r s0).2.2)).heap)) ∧
    (t ≠ (run ops (init p_interface H r s0).2.2).token →
      (free_instance_callback t p b (run ops (init p_interface H r s0).2.2)).heap
        = (run ops (init p_interface H r s0).2.2).heap ∧
      eventsSince (run ops (init p_interface H r s0).2.2)
          (free_instance_callback t p b (run ops (init p_interface H r s0).2.2))
        = [.errPrint "Asking for freeing instance with invalid token."] ∧
      ∀ b2, (eventsSince (run ops (init p_interface H r s0).2.2)
          (free_instance_callback t p b (run ops (init p_interface H r s0).2.2))).count
        (.memdelete b2) = 0) ∧
    (∀ p2, free_instance_callback t p2 b (run ops (init p_interface H r s0).2.2)
        = free_instance_callback t p b (run ops (init p_interface H r s0).2.2)) := by
  have hi := init_library_token p_interface H r s0
  have hr := run_library_token ops (init p_interface H r s0).2.2 hops
  generalize run ops (init p_interface H r s0).2.2 = s at hr ⊢
  have hlib : s.library = H := hr.1.trans hi.1
  have htok : s.token = H := hr.2.trans hi.2
  refine ⟨?_, ?_, fun _ => rfl⟩
  · intro ht
    have hcond : ¬ (t ≠ s.library) := by
      rw [ht, htok, hlib]
      simp
    have e : free_instance_callback t p b s = memdelete b s := by
      simp only [free_instance_callback, if_neg hcond]
    have ev : eventsSince s (memdelete b s) = [.memdelete b] :=
      eventsSince_append _ _ _ rfl
    rw [e, ev]
    refine ⟨rfl, by simp, ?_, ?_⟩
    · intro w hw
      simp [memdelete, emit] at hw
    · intro e he hne
      simp [memdelete, emit, he, hne]
  · intro ht
    have hcond : t ≠ s.library := by
      rw [hlib, ← htok]
      exact ht
    have e : free_instance_callback t p b s
        = errFail "Asking for freeing instance with invalid token." s := by
      simp only [free_instance_callback, if_pos hcond]
    have ev : eventsSince s (errFail "Asking for freeing instance with invalid token." s)
        = [.errPrint "Asking for freeing instance with invalid token."] :=
      eventsSince_append _ _ _ rfl
    rw [e, ev]
    refine ⟨rfl, rfl, ?_⟩
    intro b2
    simp

/-- Witness of C4: bootstrap with handle 22, create a wrapper, then free it with token 22. -/
theorem free_instance_callback_checks_token_witness :
    (∀ o ∈ [Op.create_instance_callback 22 77], o.isInit = false) ∧
    (∀ p2, free_instance_callback 22 p2 1
        (run [Op.create_instance_callback 22 77]
          (init 11 22 blankRecord (register_core_initializer 5 initialState)).2.2)
      = free_instance_callback 22 77 1
        (run [Op.create_instance_callback 22 77]
          (init 11 22 blankRecord (register_core_initializer 5 initialState)).2.2)) :=
  ⟨by simp [Op.isInit],
   (free_instance_callback_checks_token 11 22 blankRecord
      (register_core_initializer 5 initialState)
      [Op.create_instance_callback 22 77] (by simp [Op.isInit]) 22 77 1).2.2⟩

/-! ## Level trampolines -/

/-- C5: for every level `l` and every state, the events of `initialize_level l` are the
assignment `ClassDB::current_level = l`, then one call of the init callback registered for `l`
if that slot is non-null (no call at all otherwise), then one `ClassDB::initialize(l)`; no other
callback is invoked, `current_level` ends as `l`, and slots, context and wrappers are untouched. -/
theorem initialize_level_dispatch (l : GDNativeInitializationLevel) (s : State) :
    eventsSince s (initialize_level l s) =
      [.setCurrentLevel l] ++ (if initSlot s l ≠ 0 then [.call (initSlot s l)] else [])
        ++ [.classdbInit l] ∧
    callsOf (eventsSince s (initialize_level l s)) =
      (if initSlot s l ≠ 0 then [initSlot s l] else []) ∧
    (initialize_level l s).current_level = l ∧
    (eventsSince s (initialize_level l s)).count (.setCurrentLevel l) = 1 ∧
    (eventsSince s (initialize_level l s)).count (.classdbInit l) = 1 ∧
    (∀ l2, l2 ≠ l → (eventsSince s (initialize_level l s)).count (.classdbInit l2) = 0) ∧
    (∀ l2, (eventsSince s (initialize_level l s)).count (.classdbDeinit l2) = 0) ∧
    slots (initialize_level l s) = slots s ∧
    context (initialize_level l s) = context s ∧
    (initialize_level l s).heap = s.heap := by
  rw [eventsSince_initialize_level]
  refine ⟨rfl, ?_, ?_, ?_, ?_, ?_, ?_, ?_, ?_, ?_⟩
  · by_cases h : initSlot s l = 0 <;> simp [h, callsOf]
  · rw [initialize_level_eq]
  · by_cases h : initSlot s l = 0 <;> simp [h]
  · by_cases h : initSlot s l = 0 <;> simp [h]
  · intro l2 hl2
    by_cases h : initSlot s l = 0 <;> simp [h, hl2, List.count_eq_zero]
  · intro l2
    by_cases h : initSlot s l = 0 <;> simp [h]
  · rw [initialize_level_eq]
    rfl
  · rw [initialize_level_eq]
    rfl
  · rw [initialize_level_eq]

/-- C6 (counterexample): with CORE init callback 7 registered, the events of
`initialize_level CORE` start with the `current_level` assignment, so the callback does not
precede it. -/
theorem initialize_level_assigns_level_first :
    initSlot (register_core_initializer 7 initialState) CORE ≠ 0 ∧
    eventsSince (register_core_initializer 7 initialState)
        (initialize_level CORE (register_core_initializer 7 initialState))
      = [.setCurrentLevel CORE, .call 7, .classdbInit CORE] ∧
    ¬ precedes (.call 7) (.setCurrentLevel CORE)
        (eventsSince (register_core_initializer 7 initialState)
          (initialize_level CORE (register_core_initializer 7 initialState))) := by
  rw [eventsSince_initialize_level]
  simp [initSlot, register_core_initializer, initialState, precedes, List.indexOf_cons]

/-- C6 (amended): for every level `l` whose init slot is non-null, the events of
`initialize_level l` are, in this order, the assignment `current_level = l`, the call of the
registered init callback, and `ClassDB::initialize(l)`. -/
theorem initialize_level_order (l : GDNativeInitializationLevel) (s : State)
    (h : initSlot s l ≠ 0) :
    eventsSince s (initialize_level l s)
      = [.setCurrentLevel l, .call (initSlot s l), .classdbInit l] ∧
    precedes (.setCurrentLevel l) (.call (initSlot s l)) (eventsSince s (initialize_level l s)) ∧
    precedes (.call (initSlot s l)) (.classdbInit l) (eventsSince s (initialize_level l s)) := by
  rw [eventsSince_initialize_level]
  simp [h, precedes, List.indexOf_cons]

/-- Witness of C6 (amended): SCENE init callback 5 registered, SCENE entered. -/
theorem initialize_level_order_witness :
    initSlot (register_scene_initializer 5 initialState) SCENE ≠ 0 ∧
    eventsSince (register_scene_initializer 5 initialState)
        (initialize_level SCENE (register_scene_initializer 5 initialState))
      = [.setCurrentLevel SCENE,
         .call (initSlot (register_scene_initializer 5 initialState) SCENE),
         .classdbInit SCENE] :=
  ⟨by simp [initSlot, register_scene_initializer, initialState],
   (initialize_level_order SCENE (register_scene_initializer 5 initialState)
      (by simp [initSlot, register_scene_initializer, initialState])).1⟩

/-- C7: for every level `l` and every state, the events of `deinitialize_level l` are the
assignment `current_level = l`, then `ClassDB::deinitialize(l)`, then one call of the terminate
callback registered for `l` if that slot is non-null and no call otherwise; the registry call
precedes the callback, and when `l` has a callback in both directions the order of callback and
registry work is the reverse of the one in `initialize_level l`. -/
theorem deinitialize_level_dispatch (l : GDNativeInitializationLevel) (s : State) :
    eventsSince s (deinitialize_level l s) =
      [.setCurrentLevel l, .classdbDeinit l]
        ++ (if terminateSlot s l ≠ 0 then [.call (terminateSlot s l)] else []) ∧
    callsOf (eventsSince s (deinitialize_level l s)) =
      (if terminateSlot s l ≠ 0 then [terminateSlot s l] else []) ∧
    (deinitialize_level l s).current_level = l ∧
    precedes (.setCurrentLevel l) (.classdbDeinit l) (eventsSince s (deinitialize_level l s)) ∧
    (terminateSlot s l ≠ 0 →
      precedes (.classdbDeinit l) (.call (terminateSlot s l))
        (eventsSince s (deinitialize_level l s))) ∧
    ((initSlot s l ≠ 0 ↔ terminateSlot s l ≠ 0) →
      phases (eventsSince s (deinitialize_level l s))
        = (phases (eventsSince s (initialize_level l s))).reverse) ∧
    (initSlot s l ≠ 0 → terminateSlot s l ≠ 0 →
      phases (eventsSince s (initialize_level l s)) = [.userCallback, .registryCall] ∧
      phases (eventsSince s (deinitialize_level l s)) = [.registryCall, .userCallback]) := by
  rw [eventsSince_deinitialize_level, eventsSince_initialize_level]
  refine ⟨rfl, ?_, ?_, ?_, ?_, ?_, ?_⟩
  · by_cases h : terminateSlot s l = 0 <;> simp [h, callsOf]
  · rw [deinitialize_level_eq]
  · simp [precedes, List.indexOf_cons]
  · intro h
    simp [h, precedes, List.indexOf_cons]
  · intro h
    by_cases hi : initSlot s l = 0
    · have ht : terminateSlot s l = 0 := by
        by_contra hne
        exact (h.mpr hne) hi
      simp [hi, ht, phases, phaseOf]
    · have ht : terminateSlot s l ≠ 0 := h.mp hi
      simp [hi, ht, phases, phaseOf]
  · intro hi ht
    simp [hi, ht, phases, phaseOf]

/-- Witness of C7: CORE has callback 5 for init and 6 for terminate. -/
theorem deinitialize_level_dispatch_witness :
    terminateSlot (register_core_terminator 6 (register_core_initializer 5 initialState)) CORE
      ≠ 0 ∧
    precedes (.classdbDeinit CORE)
      (.call (terminateSlot
        (register_core_terminator 6 (register_core_initializer 5 initialState)) CORE))
      (eventsSince (register_core_terminator 6 (register_core_initializer 5 initialState))
        (deinitialize_level CORE
          (register_core_terminator 6 (register_core_initializer 5 initialState)))) :=
  ⟨by simp [terminateSlot, register_core_terminator, register_core_initializer, initialState],
   (deinitialize_level_dispatch CORE
      (register_core_terminator 6 (register_core_initializer 5 initialState))).2.2.2.2.1
      (by simp [terminateSlot, register_core_terminator, register_core_initializer,
            initialState])⟩

/-- C9 (counterexample): `init` has never been called, CORE init callback 7 is registered, and
`initialize_level CORE` invokes it and notifies `ClassDB`. -/
theorem initialize_level_before_init_enters :
    context (run [Op.register_core_initializer 7] initialState) = (0, 0, 0) ∧
    callsOf (eventsSince (run [Op.register_core_initializer 7] initialState)
      (initialize_level CORE (run [Op.register_core_initializer 7] initialState))) = [7] ∧
    Event.classdbInit CORE ∈ eventsSince (run [Op.register_core_initializer 7] initialState)
      (initialize_level CORE (run [Op.register_core_initializer 7] initialState)) ∧
    ¬ (callsOf (eventsSince (run [Op.register_core_initializer 7] initialState)
        (initialize_level CORE (run [Op.register_core_initializer 7] initialState))) = [] ∧
       Event.setCurrentLevel CORE ∉
        eventsSince (run [Op.register_core_initializer 7] initialState)
          (initialize_level CORE (run [Op.register_core_initializer 7] initialState)) ∧
       Event.classdbInit CORE ∉
        eventsSince (run [Op.register_core_initializer 7] initialState)
          (initialize_level CORE (run [Op.register_core_initializer 7] initialState))) := by
  rw [eventsSince_initialize_level]
  simp [run, step, register_core_initializer, initialState, context, initSlot, callsOf]

/-- C9 (amended): `initialize_level` does not consult the binding context. In a state reached
from a null context by calls other than `init`, the context is still null and
`initialize_level l` nevertheless assigns `current_level = l`, invokes the init callback
registered for `l` if there is one, and calls `ClassDB::initialize(l)`. -/
theorem initialize_level_unguarded (s0 : State) (ops : List Op)
    (h0 : context s0 = (0, 0, 0)) (hops : ∀ o ∈ ops, o.isInit = false)
    (l : GDNativeInitializationLevel) :
    context (run ops s0) = (0, 0, 0) ∧
    eventsSince (run ops s0) (initialize_level l (run ops s0)) =
      [.setCurrentLevel l]
        ++ (if initSlot (run ops s0) l ≠ 0 then [.call (initSlot (run ops s0) l)] else [])
        ++ [.classdbInit l] ∧
    (initialize_level l (run ops s0)).current_level = l := by
  refine ⟨?_, eventsSince_initialize_level _ _, ?_⟩
  · have h1 := run_interface ops s0 hops
    have h2 := run_library_token ops s0 hops
    simp only [context, Prod.mk.injEq] at h0 ⊢
    exact ⟨h1.trans h0.1, h2.1.trans h0.2.1, h2.2.trans h0.2.2⟩
  · rw [initialize_level_eq]

/-- Witness of C9 (amended): a SCENE init callback is registered and SCENE is entered with no
`init` call before it. -/
theorem initialize_level_unguarded_witness :
    context initialState = (0, 0, 0) ∧
    (∀ o ∈ [Op.register_scene_initializer 5], o.isInit = false) ∧
    context (run [Op.register_scene_initializer 5] initialState) = (0, 0, 0) :=
  ⟨rfl, by simp [Op.isInit],
   (initialize_level_unguarded initialState [Op.register_scene_initializer 5] rfl
      (by simp [Op.isInit]) SCENE).1⟩

/-! ## Registration setters -/

/-- C8: each of the eight setters writes its argument to its own position among the eight slots
and leaves the other seven, the binding context, `current_level`, the wrappers and the trace as
they were; setting `f` and then `g` gives the same state as setting `g` alone. -/
theorem register_setters_frame (f g : Callback) (s : State) :
    (slots (register_core_initializer f s) = (slots s).set 0 f ∧
      register_core_initializer g (register_core_initializer f s)
        = register_core_initializer g s) ∧
    (slots (register_server_initializer f s) = (slots s).set 1 f ∧
      register_server_initializer g (register_server_initializer f s)
        = register_server_initializer g s) ∧
    (slots (register_scene_initializer f s) = (slots s).set 2 f ∧
      register_scene_initializer g (register_scene_initializer f s)
        = register_scene_initializer g s) ∧
    (slots (register_editor_initializer f s) = (slots s).set 3 f ∧
      register_editor_initializer g (register_editor_initializer f s)
        = register_editor_initializer g s) ∧
    (slots (register_core_terminator f s) = (slots s).set 4 f ∧
      register_core_terminator g (register_core_terminator f s)
        = register_core_terminator g s) ∧
    (slots (register_server_terminator f s) = (slots s).set 5 f ∧
      register_server_terminator g (register_server_terminator f s)
        = register_server_terminator g s) ∧
    (slots (register_scene_terminator f s) = (slots s).set 6 f ∧
      register_scene_terminator g (register_scene_terminator f s)
        = register_scene_terminator g s) ∧
    (slots (register_editor_terminator f s) = (slots s).set 7 f ∧
      register_editor_terminator g (register_editor_terminator f s)
        = register_editor_terminator g s) ∧
    (∀ o : Op, o ∈ [Op.register_core_initializer f, Op.register_server_initializer f,
        Op.register_scene_initializer f, Op.register_editor_initializer f,
        Op.register_core_terminator f, Op.register_server_terminator f,
        Op.register_scene_terminator f, Op.register_editor_terminator f] →
      context (step o s) = context s ∧ (step o s).current_level = s.current_level ∧
      (step o s).heap = s.heap ∧ (step o s).trace = s.trace) := by
  refine ⟨⟨rfl, rfl⟩, ⟨rfl, rfl⟩, ⟨rfl, rfl⟩, ⟨rfl, rfl⟩, ⟨rfl, rfl⟩, ⟨rfl, rfl⟩, ⟨rfl, rfl⟩,
    ⟨rfl, rfl⟩, ?_⟩
  intro o ho
  simp only [List.mem_cons, List.mem_singleton, List.not_mem_nil, or_false] at ho
  rcases ho with h | h | h | h | h | h | h | h <;> subst h <;> exact ⟨rfl, rfl, rfl, rfl⟩

/-- Witness of C8: the core initializer is set to 5, then cleared with a null pointer. -/
theorem register_setters_frame_witness :
    register_core_initializer 0 (register_core_initializer 5 initialState) = initialState ∧
    context (step (Op.register_core_initializer 5) initialState) = context initialState :=
  ⟨(register_setters_frame 5 0 initialState).1.2,
   ((register_setters_frame 5 0 initialState).2.2.2.2.2.2.2.2
      (Op.register_core_initializer 5) (by simp)).1⟩

/-! ## Token invariant -/

/-- C10: in every state reached from a state with null interface, library and token by any
sequence of calls of the entry points, the stored token equals the stored library handle, so the
comparison against `internal::library` rejects exactly the tokens a comparison against
`internal::token` would; every entry point other than `init` leaves both fields as they are,
and `init` sets both to its library argument whether it succeeds or fails. -/
theorem token_eq_library_invariant (s0 : State) (ops : List Op)
    (h0 : context s0 = (0, 0, 0)) :
    (run ops s0).token = (run ops s0).library ∧
    (∀ t : Ptr, t ≠ (run ops s0).library ↔ t ≠ (run ops s0).token) ∧
    (∀ o : Op, o.isInit = false →
      (step o (run ops s0)).library = (run ops s0).library ∧
      (step o (run ops s0)).token = (run ops s0).token) ∧
    (∀ (i l : Ptr) (r : GDNativeInitialization),
      (step (.init i l r) (run ops s0)).library = l ∧
      (step (.init i l r) (run ops s0)).token = l) := by
  have hinit : s0.token = s0.library := by
    simp only [context, Prod.mk.injEq] at h0
    rw [h0.2.1, h0.2.2]
  have hinv := run_token_eq_library ops s0 hinit
  refine ⟨hinv, ?_, ?_, ?_⟩
  · intro t
    rw [hinv]
  · intro o ho
    exact step_library_token o _ ho
  · intro i l r
    exact init_library_token i l r _

/-- Witness of C10: a failed `init`, a registration, a successful `init` with another handle and
an instance creation, from the load-time state. -/
theorem token_eq_library_invariant_witness :
    context initialState = (0, 0, 0) ∧
    (run [Op.init 11 22 blankRecord, Op.register_editor_initializer 4,
          Op.init 11 33 blankRecord, Op.create_instance_callback 33 77] initialState).token
      = (run [Op.init 11 22 blankRecord, Op.register_editor_initializer 4,
          Op.init 11 33 blankRecord, Op.create_instance_callback 33 77] initialState).library :=
  ⟨rfl,
   (token_eq_library_invariant initialState
      [Op.init 11 22 blankRecord, Op.register_editor_initializer 4,
       Op.init 11 33 blankRecord, Op.create_instance_callback 33 77] rfl).1⟩

end godot
